import Mathlib

/-!
Shallow embedding of the escalated-django ticketing core: the ticket state
machine (`drivers/local.py`), the SLA deadline engine (`services/sla_service.py`),
the reply handler (`handlers.py`), and the escalation rule engine
(`services/escalation_service.py`).

Timestamps are modelled as natural numbers counting seconds, with second
granularity, where day 0 of the epoch is a Monday (so `isoweekday` matches
Python's Mon=1..Sun=7 convention).  SLA hour budgets are modelled as whole
hours (the JSON fields hold numbers; the embedded operations agree with the
source on whole-hour inputs).
-/

namespace Escalated

/-- Ticket.Status from models.py. -/
inductive Status where
  | open_
  | inProgress
  | waitingOnCustomer
  | waitingOnAgent
  | escalated
  | resolved
  | closed_
  | reopened
deriving DecidableEq, Repr

/-- Ticket.Priority from models.py. -/
inductive Priority where
  | low
  | medium
  | high
  | urgent
  | critical
deriving DecidableEq, Repr

/-- EscalationRule.TriggerType from models.py. -/
inductive TriggerType where
  | slaBreach
  | priorityChange
  | noResponse
  | customerReply
  | timeBased
deriving DecidableEq, Repr

/-- The breach kind carried by the `sla_breached` signal payload. -/
inductive BreachKind where
  | firstResponse
  | resolution
deriving DecidableEq, Repr

/-- SlaPolicy from models.py: per-priority hour budgets stored as mappings,
plus the business-hours switch. -/
structure SlaPolicy where
  firstResponseHours : List (Priority × Nat)
  resolutionHours : List (Priority × Nat)
  businessHoursOnly : Bool
deriving DecidableEq, Repr

/-- `SlaPolicy.get_first_response_hours`: `self.first_response_hours.get(priority)`. -/
def SlaPolicy.get_first_response_hours (p : SlaPolicy) (priority : Priority) : Option Nat :=
  p.firstResponseHours.lookup priority

/-- `SlaPolicy.get_resolution_hours`: `self.resolution_hours.get(priority)`. -/
def SlaPolicy.get_resolution_hours (p : SlaPolicy) (priority : Priority) : Option Nat :=
  p.resolutionHours.lookup priority

/-- The Ticket fields the core's algorithms read and write.  Users are
identified by numeric ids; the requester is `none` on guest tickets. -/
structure Ticket where
  status : Status
  priority : Priority
  requesterId : Option Nat
  assignedTo : Option Nat
  departmentId : Option Nat
  slaPolicy : Option SlaPolicy
  firstResponseDueAt : Option Nat
  firstResponseAt : Option Nat
  resolutionDueAt : Option Nat
  resolvedAt : Option Nat
  closedAt : Option Nat
  slaFirstResponseBreached : Bool
  slaResolutionBreached : Bool
  createdAt : Nat
deriving DecidableEq, Repr

/-- `Ticket.is_open` from models.py: membership in the six open statuses. -/
def Ticket.is_open (t : Ticket) : Bool :=
  t.status = Status.open_ ∨ t.status = Status.inProgress ∨
    t.status = Status.waitingOnCustomer ∨ t.status = Status.waitingOnAgent ∨
    t.status = Status.escalated ∨ t.status = Status.reopened

/-! ## Business-hours arithmetic (`SlaService._add_business_hours`) -/

/-- The business calendar read from settings: start-of-business and
end-of-business as seconds after midnight, and the active isoweekdays. -/
structure BusinessCalendar where
  startSec : Nat
  endSec : Nat
  days : List Nat
deriving DecidableEq, Repr

/-- Day number of an instant (86400 seconds per day). -/
def dayIndex (t : Nat) : Nat := t / 86400

/-- Seconds after midnight of an instant. -/
def timeOfDay (t : Nat) : Nat := t % 86400

/-- Python's `isoweekday`: Mon=1 .. Sun=7, with epoch day 0 a Monday. -/
def isoweekday (t : Nat) : Nat := dayIndex t % 7 + 1

/-- `current += timedelta(days=1)` followed by `replace(hour=start...)`:
start-of-business on the next calendar day. -/
def nextDayStart (cal : BusinessCalendar) (t : Nat) : Nat :=
  (dayIndex t + 1) * 86400 + cal.startSec

/-- `replace(hour=start...)` on the same day: snap to start-of-business. -/
def sameDayStart (cal : BusinessCalendar) (t : Nat) : Nat :=
  dayIndex t * 86400 + cal.startSec

/-- The `while remaining_seconds > 0` loop of `_add_business_hours`,
made total with a fuel argument (the source loop diverges on a calendar
with no active days; fuel exhaustion returns the cursor unchanged). -/
def bhLoop (cal : BusinessCalendar) : Nat → Nat → Nat → Nat
  | 0, _, current => current
  | _ + 1, 0, current => current
  | fuel + 1, remaining, current =>
    if isoweekday current ∈ cal.days then
      let current := if timeOfDay current < cal.startSec then sameDayStart cal current else current
      if cal.endSec ≤ timeOfDay current then
        bhLoop cal fuel remaining (nextDayStart cal current)
      else
        let available := (dayIndex current * 86400 + cal.endSec) - current
        if remaining ≤ available then current + remaining
        else bhLoop cal fuel (remaining - available) (nextDayStart cal current)
    else
      bhLoop cal fuel remaining (nextDayStart cal current)

/-- `SlaService._add_business_hours`: degenerate calendars (end not after
start) fall back to plain calendar-hour addition; otherwise run the cursor
loop on `hours * 3600` remaining seconds. -/
def add_business_hours (cal : BusinessCalendar) (start_dt : Nat) (hours : Nat) : Nat :=
  if cal.endSec ≤ cal.startSec then start_dt + hours * 3600
  else bhLoop cal (7 * (hours * 3600) + 14) (hours * 3600) start_dt

/-- The default calendar from conf.py: 09:00-17:00, Monday..Friday. -/
def defaultCal : BusinessCalendar :=
  { startSec := 9 * 3600, endSec := 17 * 3600, days := [1, 2, 3, 4, 5] }

/-! ## SLA deadline application (`SlaService.apply_sla_deadlines`) -/

/-- `SlaService.apply_sla_deadlines`: without a policy, return the ticket
untouched; otherwise, for each hour budget defined at the ticket's priority,
write the due-date field from `now + hours` (calendar) or from
business-hours addition when the policy says so. -/
def apply_sla_deadlines (cal : BusinessCalendar) (now : Nat) (t : Ticket) : Ticket :=
  match t.slaPolicy with
  | none => t
  | some policy =>
    let due := fun (h : Nat) =>
      if policy.businessHoursOnly then add_business_hours cal now h else now + h * 3600
    let t1 :=
      match policy.get_first_response_hours t.priority with
      | some h => { t with firstResponseDueAt := some (due h) }
      | none => t
    match policy.get_resolution_hours t.priority with
    | some h => { t1 with resolutionDueAt := some (due h) }
    | none => t1

/-! ## Breach detection (`SlaService.check_breach`) -/

/-- The first-response breach condition of `check_breach`: a due date exists,
no first response recorded, flag not already set, and `now` strictly past due. -/
def frCond (now : Nat) (t : Ticket) : Bool :=
  match t.firstResponseDueAt with
  | some due => t.firstResponseAt.isNone && !t.slaFirstResponseBreached && decide (due < now)
  | none => false

/-- The resolution breach condition of `check_breach`. -/
def resCond (now : Nat) (t : Ticket) : Bool :=
  match t.resolutionDueAt with
  | some due => t.resolvedAt.isNone && !t.slaResolutionBreached && decide (due < now)
  | none => false

/-- Set the first-response breach flag. -/
def setFr (t : Ticket) : Ticket := { t with slaFirstResponseBreached := true }

/-- Set the resolution breach flag. -/
def setRes (t : Ticket) : Ticket := { t with slaResolutionBreached := true }

/-- `SlaService.check_breach`: returns the updated ticket, whether any breach
was newly detected, and the list of `sla_breached` events emitted. -/
def check_breach (now : Nat) (t : Ticket) : Ticket × Bool × List BreachKind :=
  if t.is_open = false then (t, false, [])
  else
    let c1 := frCond now t
    let t1 := if c1 then setFr t else t
    let c2 := resCond now t1
    let t2 := if c2 then setRes t1 else t1
    (t2, c1 || c2,
      (if c1 then [BreachKind.firstResponse] else []) ++
        (if c2 then [BreachKind.resolution] else []))

/-! ## Ticket state machine (`LocalDriver`) -/

/-- `LocalDriver.transition_status`: no-op on equal status, otherwise set the
status and stamp/clear the lifecycle timestamps. -/
def transition_status (now : Nat) (t : Ticket) (newStatus : Status) : Ticket :=
  if t.status = newStatus then t
  else
    let t' := { t with status := newStatus }
    if newStatus = Status.resolved then { t' with resolvedAt := some now }
    else if newStatus = Status.closed_ then { t' with closedAt := some now }
    else if newStatus = Status.reopened then { t' with resolvedAt := none, closedAt := none }
    else t'

/-- `LocalDriver.assign_ticket`: set the assignee, then bump Open to
InProgress. -/
def assign_ticket (t : Ticket) (agent : Nat) : Ticket :=
  let t' := { t with assignedTo := some agent }
  if t'.status = Status.open_ then { t' with status := Status.inProgress } else t'

/-- `LocalDriver.unassign_ticket`: clear the assignee. -/
def unassign_ticket (t : Ticket) : Ticket :=
  { t with assignedTo := none }

/-- `LocalDriver.add_reply`, status effect: internal notes change nothing;
a requester reply ping-pongs WaitingOnCustomer to WaitingOnAgent; any other
authenticated (staff) reply moves Open/WaitingOnAgent/Reopened to
WaitingOnCustomer; a guest (None author) reply moves WaitingOnCustomer
to Open. -/
def add_reply (now : Nat) (t : Ticket) (author : Option Nat) (isInternal : Bool) : Ticket :=
  if isInternal then t
  else
    match author with
    | some uid =>
      if t.requesterId = some uid then
        if t.status = Status.waitingOnCustomer then
          transition_status now t Status.waitingOnAgent
        else t
      else
        if t.status = Status.open_ ∨ t.status = Status.waitingOnAgent ∨
            t.status = Status.reopened then
          transition_status now t Status.waitingOnCustomer
        else t
    | none =>
      if t.status = Status.waitingOnCustomer then
        transition_status now t Status.open_
      else t

/-- `handlers.on_reply_created`: stamp `first_response_at` when it is unset,
the ticket has an assignee, and the reply author is that assignee. -/
def on_reply_created (now : Nat) (t : Ticket) (author : Option Nat) : Ticket :=
  match t.assignedTo with
  | some a =>
    if t.firstResponseAt = none ∧ author = some a then
      { t with firstResponseAt := some now }
    else t
  | none => t

/-- The full reply pipeline: the driver's `add_reply` fires the
`reply_created` signal only for non-internal replies, which in turn runs
`on_reply_created`. -/
def add_reply_full (now : Nat) (t : Ticket) (author : Option Nat) (isInternal : Bool) : Ticket :=
  let t1 := add_reply now t author isInternal
  if isInternal then t1 else on_reply_created now t1 author

/-! ## Escalation rule engine (`EscalationService`) -/

/-- The condition keys read by `_matches_conditions`, one optional field per
JSON key (absent key = `none`; `unassignedOnly` models key-present-and-truthy). -/
structure Conditions where
  noResponseHours : Option Nat
  hoursSinceCreation : Option Nat
  priorityEq : Option Priority
  status : Option (List Status)
  priority : Option (List Priority)
  departmentId : Option Nat
  unassignedOnly : Bool
deriving DecidableEq, Repr

/-- The action keys read by `_execute_actions`. -/
structure Actions where
  setPriority : Option Priority
  escalate : Bool
  assignToId : Option Nat
  departmentId : Option Nat
deriving DecidableEq, Repr

/-- EscalationRule from models.py (the fields the engine reads). -/
structure Rule where
  order : Int
  isActive : Bool
  triggerType : TriggerType
  conditions : Conditions
  actions : Actions
deriving DecidableEq, Repr

/-- The identity resolver: the sets of user and department ids that exist
(`User.objects.get` / `Department.objects.get` succeed exactly on these). -/
structure Env where
  users : List Nat
  departments : List Nat
deriving DecidableEq, Repr

/-- `EscalationService._matches_conditions`: the trigger-type predicate
followed by the generic condition checks.  `now - hours * 3600` uses
truncated subtraction; it matches the source whenever `now` is at least
`hours * 3600` past the epoch. -/
def matches_conditions (now : Nat) (t : Ticket) (r : Rule) : Bool :=
  let c := r.conditions
  let triggerOk :=
    match r.triggerType with
    | TriggerType.slaBreach => t.slaFirstResponseBreached || t.slaResolutionBreached
    | TriggerType.noResponse =>
      decide (t.createdAt ≤ now - (c.noResponseHours.getD 24) * 3600) &&
        t.firstResponseAt.isNone
    | TriggerType.timeBased =>
      decide (t.createdAt ≤ now - (c.hoursSinceCreation.getD 48) * 3600)
    | TriggerType.priorityChange =>
      match c.priorityEq with
      | some p => decide (t.priority = p)
      | none => true
    | TriggerType.customerReply => true
  let statusOk := match c.status with
    | some allowed => allowed.contains t.status
    | none => true
  let priorityOk := match c.priority with
    | some allowed => allowed.contains t.priority
    | none => true
  let deptOk := match c.departmentId with
    | some d => decide (t.departmentId = some d)
    | none => true
  let unassignedOk := !c.unassignedOnly || t.assignedTo.isNone
  triggerOk && statusOk && priorityOk && deptOk && unassignedOk

/-- The `set_priority` action: skip when already equal. -/
def stepPriority (t : Ticket) (a : Actions) : Ticket × Bool :=
  match a.setPriority with
  | some p => if t.priority = p then (t, false) else ({ t with priority := p }, true)
  | none => (t, false)

/-- The `escalate` action: force Escalated unless already there. -/
def stepEscalate (t : Ticket) (a : Actions) : Ticket × Bool :=
  if a.escalate = true ∧ ¬t.status = Status.escalated then
    ({ t with status := Status.escalated }, true)
  else (t, false)

/-- The `assign_to_id` action: an unresolvable user id is skipped. -/
def stepAssign (env : Env) (t : Ticket) (a : Actions) : Ticket × Bool :=
  match a.assignToId with
  | some uid =>
    if env.users.contains uid then
      if t.assignedTo = some uid then (t, false)
      else ({ t with assignedTo := some uid }, true)
    else (t, false)
  | none => (t, false)

/-- The `department_id` action: an unresolvable department id is skipped. -/
def stepDepartment (env : Env) (t : Ticket) (a : Actions) : Ticket × Bool :=
  match a.departmentId with
  | some d =>
    if env.departments.contains d then
      if t.departmentId = some d then (t, false)
      else ({ t with departmentId := some d }, true)
    else (t, false)
  | none => (t, false)

/-- `EscalationService._execute_actions`: the four actions in source order,
accumulating whether anything changed. -/
def execute_actions (env : Env) (t : Ticket) (r : Rule) : Ticket × Bool :=
  let pr := stepPriority t r.actions
  let es := stepEscalate pr.1 r.actions
  let asg := stepAssign env es.1 r.actions
  let dep := stepDepartment env asg.1 r.actions
  (dep.1, pr.2 || es.2 || asg.2 || dep.2)

/-- One (rule, ticket) evaluation inside `evaluate_all`: the queryset only
yields open tickets, then conditions gate action execution. -/
def applyRule (env : Env) (now : Nat) (r : Rule) (t : Ticket) : Ticket × Bool :=
  if t.is_open && matches_conditions now t r then execute_actions env t r
  else (t, false)

/-- The inner ticket loop of `evaluate_all` for one rule over the store. -/
def rulePass (env : Env) (now : Nat) (r : Rule) : List Ticket → List Ticket × Nat
  | [] => ([], 0)
  | t :: ts =>
    let rt := applyRule env now r t
    let rest := rulePass env now r ts
    (rt.1 :: rest.1, (if rt.2 then 1 else 0) + rest.2)

/-- The outer rule loop of `evaluate_all`. -/
def runRules (env : Env) (now : Nat) : List Rule → List Ticket → List Ticket × Nat
  | [], store => (store, 0)
  | r :: rs, store =>
    let p := rulePass env now r store
    let rest := runRules env now rs p.1
    (rest.1, p.2 + rest.2)

/-- Stable insertion into a list sorted by ascending `order`. -/
def insertByOrder (r : Rule) : List Rule → List Rule
  | [] => [r]
  | x :: xs => if r.order ≤ x.order then r :: x :: xs else x :: insertByOrder r xs

/-- `order_by("order")`: stable ascending sort on the `order` field. -/
def sortByOrder : List Rule → List Rule
  | [] => []
  | r :: rs => insertByOrder r (sortByOrder rs)

/-- `EscalationService.evaluate_all`: filter to active rules, sort ascending
by `order`, then run every rule over every open ticket; returns the updated
store and the action count. -/
def evaluate_all (env : Env) (now : Nat) (rules : List Rule) (store : List Ticket) :
    List Ticket × Nat :=
  runRules env now (sortByOrder (rules.filter (fun r => r.isActive))) store

/-! ## Concrete instants on the default calendar (epoch day 0 is a Monday) -/

/-- Friday 16:00 of the first epoch week. -/
def fridaySixteen : Nat := 4 * 86400 + 16 * 3600

/-- Monday 10:00 of the second epoch week. -/
def mondayTen : Nat := 7 * 86400 + 10 * 3600

/-- Monday 11:00 of the second epoch week. -/
def mondayEleven : Nat := 7 * 86400 + 11 * 3600

/-- Monday 09:00 of the first epoch week. -/
def mondayNine : Nat := 9 * 3600

/-- Monday 17:00 of the first epoch week. -/
def mondaySeventeen : Nat := 17 * 3600

/-- Tuesday 10:00 of the first epoch week. -/
def tuesdayTen : Nat := 86400 + 10 * 3600

/-! ## Helper lemmas -/

theorem setFr_status (t : Ticket) : (setFr t).status = t.status := rfl

theorem setRes_status (t : Ticket) : (setRes t).status = t.status := rfl

theorem is_open_setFr (t : Ticket) : (setFr t).is_open = t.is_open := rfl

theorem is_open_setRes (t : Ticket) : (setRes t).is_open = t.is_open := rfl

theorem frCond_setFr (now : Nat) (t : Ticket) : frCond now (setFr t) = false := by
  simp only [frCond, setFr]
  cases t.firstResponseDueAt <;> simp

theorem frCond_setRes (now : Nat) (t : Ticket) : frCond now (setRes t) = frCond now t := rfl

theorem resCond_setFr (now : Nat) (t : Ticket) : resCond now (setFr t) = resCond now t := rfl

theorem resCond_setRes (now : Nat) (t : Ticket) : resCond now (setRes t) = false := by
  simp only [resCond, setRes]
  cases t.resolutionDueAt <;> simp

/-- Re-running `check_breach` immediately on the ticket produced by a first
run changes nothing, detects nothing, and emits no event. -/
theorem check_breach_twice (now : Nat) (t : Ticket) :
    check_breach now (check_breach now t).1 = ((check_breach now t).1, false, []) := by
  by_cases hopen : t.is_open = false
  · simp [check_breach, hopen]
  · by_cases h1 : frCond now t
    · by_cases h2 : resCond now (setFr t)
      · simp [check_breach, hopen, h1, h2, is_open_setFr, is_open_setRes,
          frCond_setFr, frCond_setRes, resCond_setRes]
      · simp [check_breach, hopen, h1, h2, is_open_setFr, frCond_setFr]
    · by_cases h2 : resCond now t
      · simp [check_breach, hopen, h1, h2, is_open_setRes, frCond_setRes, resCond_setRes]
      · simp [check_breach, hopen, h1, h2]

/-- `transition_status` always leaves the ticket carrying the requested
status (the no-op branch already has it). -/
theorem transition_status_status (now : Nat) (t : Ticket) (s : Status) :
    (transition_status now t s).status = s := by
  unfold transition_status
  by_cases h : t.status = s
  · simp [h]
  · simp only [h, if_false]
    split_ifs <;> simp

theorem transition_status_frFlag (now : Nat) (t : Ticket) (s : Status) :
    (transition_status now t s).slaFirstResponseBreached = t.slaFirstResponseBreached := by
  unfold transition_status
  split_ifs <;> simp

theorem transition_status_resFlag (now : Nat) (t : Ticket) (s : Status) :
    (transition_status now t s).slaResolutionBreached = t.slaResolutionBreached := by
  unfold transition_status
  split_ifs <;> simp

theorem transition_status_frDue (now : Nat) (t : Ticket) (s : Status) :
    (transition_status now t s).firstResponseDueAt = t.firstResponseDueAt := by
  unfold transition_status
  split_ifs <;> simp

theorem transition_status_resDue (now : Nat) (t : Ticket) (s : Status) :
    (transition_status now t s).resolutionDueAt = t.resolutionDueAt := by
  unfold transition_status
  split_ifs <;> simp

theorem transition_status_frAt (now : Nat) (t : Ticket) (s : Status) :
    (transition_status now t s).firstResponseAt = t.firstResponseAt := by
  unfold transition_status
  split_ifs <;> simp

theorem transition_status_assigned (now : Nat) (t : Ticket) (s : Status) :
    (transition_status now t s).assignedTo = t.assignedTo := by
  unfold transition_status
  split_ifs <;> simp

/-! ## Sample records for witnesses -/

/-- An open ticket with both deadlines pending and no policy attached. -/
def openSample : Ticket :=
  { status := Status.open_, priority := Priority.medium, requesterId := some 1,
    assignedTo := none, departmentId := none, slaPolicy := none,
    firstResponseDueAt := some 100, firstResponseAt := none,
    resolutionDueAt := some 200, resolvedAt := none, closedAt := none,
    slaFirstResponseBreached := false, slaResolutionBreached := false,
    createdAt := 0 }

/-- A resolved ticket with its lifecycle timestamps stamped. -/
def resolvedSample : Ticket :=
  { status := Status.resolved, priority := Priority.high, requesterId := some 1,
    assignedTo := some 2, departmentId := none, slaPolicy := none,
    firstResponseDueAt := some 100, firstResponseAt := some 40,
    resolutionDueAt := some 200, resolvedAt := some 150, closedAt := none,
    slaFirstResponseBreached := true, slaResolutionBreached := false,
    createdAt := 0 }

/-! ## Claim theorems -/

/-- Claim C1, counterexample: with the Mon-Fri 09:00-17:00 calendar, adding
3 business hours starting Friday 16:00 does not yield Monday 10:00. -/
theorem addBusinessHours_friday_claim_false :
    ¬ add_business_hours defaultCal fridaySixteen 3 = mondayTen := by decide

/-- Claim C1, amended: with the Mon-Fri 09:00-17:00 calendar, adding 3
business hours starting Friday 16:00 skips Saturday and Sunday and yields
Monday 11:00 (one hour is consumed Friday 16:00-17:00, the remaining two
land after Monday's 09:00 start-of-business). -/
theorem addBusinessHours_friday_amended :
    add_business_hours defaultCal fridaySixteen 3 = mondayEleven := by decide

/-- Claim C3: on the Mon-Fri 09:00-17:00 calendar, adding 8 business hours
from Monday 09:00 lands exactly at Monday 17:00 (end-of-business is reached
without crossing into the next day), and adding 9 hours from the same start
carries the one remaining hour to Tuesday, yielding Tuesday 10:00. -/
theorem addBusinessHours_exact_boundary :
    add_business_hours defaultCal mondayNine 8 = mondaySeventeen ∧
    add_business_hours defaultCal mondayNine 9 = tuesdayTen := by decide

/-- Claim C6: for an actual transition (new status differs), Resolved stamps
`resolvedAt`, Closed stamps `closedAt`, and Reopened clears both while
leaving the two due-date fields and the two SLA breach flags unchanged. -/
theorem transitionStatus_timestamp_effects (now : Nat) (t : Ticket) (s : Status)
    (h : ¬ t.status = s) :
    (s = Status.resolved → (transition_status now t s).resolvedAt = some now) ∧
    (s = Status.closed_ → (transition_status now t s).closedAt = some now) ∧
    (s = Status.reopened →
      (transition_status now t s).resolvedAt = none ∧
      (transition_status now t s).closedAt = none ∧
      (transition_status now t s).firstResponseDueAt = t.firstResponseDueAt ∧
      (transition_status now t s).resolutionDueAt = t.resolutionDueAt ∧
      (transition_status now t s).slaFirstResponseBreached = t.slaFirstResponseBreached ∧
      (transition_status now t s).slaResolutionBreached = t.slaResolutionBreached) := by
  refine ⟨fun hs => ?_, fun hs => ?_, fun hs => ?_⟩ <;> subst hs <;>
    simp [transition_status, h]

/-- Claim C6 witness: reopening a resolved ticket clears both lifecycle
timestamps and preserves due dates and breach flags. -/
theorem transitionStatus_timestamp_effects_witness :
    (transition_status 50 resolvedSample Status.reopened).resolvedAt = none ∧
    (transition_status 50 resolvedSample Status.reopened).closedAt = none ∧
    (transition_status 50 resolvedSample Status.reopened).firstResponseDueAt =
      resolvedSample.firstResponseDueAt ∧
    (transition_status 50 resolvedSample Status.reopened).resolutionDueAt =
      resolvedSample.resolutionDueAt ∧
    (transition_status 50 resolvedSample Status.reopened).slaFirstResponseBreached =
      resolvedSample.slaFirstResponseBreached ∧
    (transition_status 50 resolvedSample Status.reopened).slaResolutionBreached =
      resolvedSample.slaResolutionBreached :=
  (transitionStatus_timestamp_effects 50 resolvedSample Status.reopened (by decide)).2.2
    rfl

/-- Claim C9: `check_breach` on a ticket whose status is not open (Resolved
or Closed) returns false, sets nothing and emits nothing, regardless of the
deadlines; and the open statuses are exactly the six listed ones. -/
theorem checkBreach_requires_open (now : Nat) (t : Ticket)
    (h : t.status = Status.resolved ∨ t.status = Status.closed_) :
    check_breach now t = (t, false, []) ∧
    (∀ u : Ticket, u.is_open = true ↔
      (u.status = Status.open_ ∨ u.status = Status.inProgress ∨
       u.status = Status.waitingOnCustomer ∨ u.status = Status.waitingOnAgent ∨
       u.status = Status.escalated ∨ u.status = Status.reopened)) := by
  constructor
  · have hopen : t.is_open = false := by
      rcases h with h | h <;> simp [Ticket.is_open, h]
    simp [check_breach, hopen]
  · intro u
    simp [Ticket.is_open]

/-- Claim C9 witness: a resolved ticket far past both deadlines is not
flagged. -/
theorem checkBreach_requires_open_witness :
    check_breach 1000000 resolvedSample = (resolvedSample, false, []) :=
  (checkBreach_requires_open 1000000 resolvedSample (Or.inl rfl)).1

/-- Claim C8: `apply_sla_deadlines` with no policy attached returns the
ticket untouched; with a policy whose `businessHoursOnly` is false and which
defines hours at the ticket's priority, it writes each due-date field as
exactly `now + hours` in calendar arithmetic. -/
theorem applyDeadlines_policy_cases (cal : BusinessCalendar) (now : Nat) (t : Ticket) :
    (t.slaPolicy = none → apply_sla_deadlines cal now t = t) ∧
    (∀ pol, t.slaPolicy = some pol → pol.businessHoursOnly = false →
      (∀ h, pol.get_first_response_hours t.priority = some h →
        (apply_sla_deadlines cal now t).firstResponseDueAt = some (now + h * 3600)) ∧
      (∀ h, pol.get_resolution_hours t.priority = some h →
        (apply_sla_deadlines cal now t).resolutionDueAt = some (now + h * 3600))) := by
  constructor
  · intro h
    simp [apply_sla_deadlines, h]
  · intro pol hpol hbh
    constructor
    · intro h hh
      cases hres : pol.get_resolution_hours t.priority <;>
        simp [apply_sla_deadlines, hpol, hbh, hh, hres]
    · intro h hh
      cases hfr : pol.get_first_response_hours t.priority <;>
        simp [apply_sla_deadlines, hpol, hbh, hh, hfr]

/-- A non-business-hours policy giving medium priority 4 first-response
hours and 8 resolution hours. -/
def calendarPolicy : SlaPolicy :=
  { firstResponseHours := [(Priority.medium, 4)],
    resolutionHours := [(Priority.medium, 8)],
    businessHoursOnly := false }

/-- An open medium-priority ticket carrying `calendarPolicy` and no
deadlines yet. -/
def policySample : Ticket :=
  { openSample with
      slaPolicy := some calendarPolicy,
      firstResponseDueAt := none,
      resolutionDueAt := none }

/-- Claim C8 witness: no policy leaves the ticket untouched, and the
calendar-arithmetic policy stamps `now + hours` on both due dates. -/
theorem applyDeadlines_policy_cases_witness :
    apply_sla_deadlines defaultCal 1000 openSample = openSample ∧
    (apply_sla_deadlines defaultCal 1000 policySample).firstResponseDueAt =
      some (1000 + 4 * 3600) ∧
    (apply_sla_deadlines defaultCal 1000 policySample).resolutionDueAt =
      some (1000 + 8 * 3600) :=
  ⟨(applyDeadlines_policy_cases defaultCal 1000 openSample).1 rfl,
   ((applyDeadlines_policy_cases defaultCal 1000 policySample).2 calendarPolicy rfl rfl).1
     4 (by decide),
   ((applyDeadlines_policy_cases defaultCal 1000 policySample).2 calendarPolicy rfl rfl).2
     8 (by decide)⟩

theorem setFr_frFlag (t : Ticket) : (setFr t).slaFirstResponseBreached = true := rfl

theorem setRes_frFlag (t : Ticket) :
    (setRes t).slaFirstResponseBreached = t.slaFirstResponseBreached := rfl

theorem setRes_resFlag (t : Ticket) : (setRes t).slaResolutionBreached = true := rfl

theorem frCond_true_of (now d : Nat) (t : Ticket)
    (h1 : t.firstResponseDueAt = some d) (h2 : t.firstResponseAt = none)
    (h3 : t.slaFirstResponseBreached = false) (h4 : d < now) : frCond now t = true := by
  simp [frCond, h1, h2, h3, h4]

theorem resCond_true_of (now d : Nat) (t : Ticket)
    (h1 : t.resolutionDueAt = some d) (h2 : t.resolvedAt = none)
    (h3 : t.slaResolutionBreached = false) (h4 : d < now) : resCond now t = true := by
  simp [resCond, h1, h2, h3, h4]

/-- Claim C5: on an open ticket past an unsatisfied, not-yet-flagged
deadline, the first `check_breach` call reports a new breach and sets the
corresponding flag; an immediately repeated call on the resulting ticket
changes nothing, reports false, and emits no breach event. -/
theorem checkBreach_idempotent (now : Nat) (t : Ticket)
    (hopen : t.is_open = true)
    (hpast :
      (∃ d, t.firstResponseDueAt = some d ∧ t.firstResponseAt = none ∧
        t.slaFirstResponseBreached = false ∧ d < now) ∨
      (∃ d, t.resolutionDueAt = some d ∧ t.resolvedAt = none ∧
        t.slaResolutionBreached = false ∧ d < now)) :
    (check_breach now t).2.1 = true ∧
    ((∃ d, t.firstResponseDueAt = some d ∧ t.firstResponseAt = none ∧
        t.slaFirstResponseBreached = false ∧ d < now) →
      (check_breach now t).1.slaFirstResponseBreached = true) ∧
    ((∃ d, t.resolutionDueAt = some d ∧ t.resolvedAt = none ∧
        t.slaResolutionBreached = false ∧ d < now) →
      (check_breach now t).1.slaResolutionBreached = true) ∧
    check_breach now (check_breach now t).1 = ((check_breach now t).1, false, []) := by
  have hno : ¬ t.is_open = false := by simp [hopen]
  refine ⟨?_, ?_, ?_, check_breach_twice now t⟩
  · rcases hpast with ⟨d, h1, h2, h3, h4⟩ | ⟨d, h1, h2, h3, h4⟩
    · have hc1 : frCond now t = true := frCond_true_of now d t h1 h2 h3 h4
      simp [check_breach, hno, hc1]
    · have hc2 : resCond now t = true := resCond_true_of now d t h1 h2 h3 h4
      by_cases hc1 : frCond now t = true
      · simp [check_breach, hno, hc1, resCond_setFr, hc2]
      · simp [check_breach, hno, hc1, hc2]
  · rintro ⟨d, h1, h2, h3, h4⟩
    have hc1 : frCond now t = true := frCond_true_of now d t h1 h2 h3 h4
    by_cases hc2 : resCond now (setFr t) = true <;>
      simp [check_breach, hno, hc1, hc2, setFr_frFlag, setRes_frFlag]
  · rintro ⟨d, h1, h2, h3, h4⟩
    have hc2 : resCond now t = true := resCond_true_of now d t h1 h2 h3 h4
    by_cases hc1 : frCond now t = true
    · simp [check_breach, hno, hc1, resCond_setFr, hc2, setRes_resFlag]
    · simp [check_breach, hno, hc1, hc2, setRes_resFlag]

/-- Claim C5 witness: an open ticket 50 seconds past its first-response due
date breaches once; the repeated call reports nothing new. -/
theorem checkBreach_idempotent_witness :
    (check_breach 150 openSample).2.1 = true ∧
    check_breach 150 (check_breach 150 openSample).1 =
      ((check_breach 150 openSample).1, false, []) :=
  ⟨(checkBreach_idempotent 150 openSample (by decide)
      (Or.inl ⟨100, rfl, rfl, rfl, by decide⟩)).1,
   (checkBreach_idempotent 150 openSample (by decide)
      (Or.inl ⟨100, rfl, rfl, rfl, by decide⟩)).2.2.2⟩

/-- Claim C2: the reply-driven status table.  An internal note never changes
the status; a requester reply turns WaitingOnCustomer into WaitingOnAgent; a
staff (authenticated non-requester) reply turns Open, WaitingOnAgent or
Reopened into WaitingOnCustomer; a guest reply turns WaitingOnCustomer into
Open; every other author-type and status combination leaves the status
unchanged. -/
theorem recordReply_transition_table (now : Nat) (t : Ticket) (author : Option Nat)
    (internal : Bool) :
    (add_reply now t author internal).status =
      if internal = true then t.status
      else
        match author with
        | some uid =>
          if t.requesterId = some uid then
            if t.status = Status.waitingOnCustomer then Status.waitingOnAgent else t.status
          else
            if t.status = Status.open_ ∨ t.status = Status.waitingOnAgent ∨
                t.status = Status.reopened then Status.waitingOnCustomer
            else t.status
        | none =>
          if t.status = Status.waitingOnCustomer then Status.open_ else t.status := by
  cases internal with
  | true => simp [add_reply]
  | false =>
    cases author with
    | none =>
      by_cases hs : t.status = Status.waitingOnCustomer <;>
        simp [add_reply, hs, transition_status_status]
    | some uid =>
      by_cases hreq : t.requesterId = some uid
      · by_cases hs : t.status = Status.waitingOnCustomer <;>
          simp [add_reply, hreq, hs, transition_status_status]
      · by_cases hs : t.status = Status.open_ ∨ t.status = Status.waitingOnAgent ∨
            t.status = Status.reopened <;>
          simp [add_reply, hreq, hs, transition_status_status]

theorem add_reply_assigned (now : Nat) (t : Ticket) (author : Option Nat) (internal : Bool) :
    (add_reply now t author internal).assignedTo = t.assignedTo := by
  cases internal <;> cases author <;>
    simp only [add_reply, Bool.false_eq_true, if_false, if_true] <;>
    split_ifs <;> simp [transition_status_assigned]

theorem add_reply_frAt (now : Nat) (t : Ticket) (author : Option Nat) (internal : Bool) :
    (add_reply now t author internal).firstResponseAt = t.firstResponseAt := by
  cases internal <;> cases author <;>
    simp only [add_reply, Bool.false_eq_true, if_false, if_true] <;>
    split_ifs <;> simp [transition_status_frAt]

theorem add_reply_frDue (now : Nat) (t : Ticket) (author : Option Nat) (internal : Bool) :
    (add_reply now t author internal).firstResponseDueAt = t.firstResponseDueAt := by
  cases internal <;> cases author <;>
    simp only [add_reply, Bool.false_eq_true, if_false, if_true] <;>
    split_ifs <;> simp [transition_status_frDue]

theorem add_reply_frFlag (now : Nat) (t : Ticket) (author : Option Nat) (internal : Bool) :
    (add_reply now t author internal).slaFirstResponseBreached =
      t.slaFirstResponseBreached := by
  cases internal <;> cases author <;>
    simp only [add_reply, Bool.false_eq_true, if_false, if_true] <;>
    split_ifs <;> simp [transition_status_frFlag]

theorem add_reply_resFlag (now : Nat) (t : Ticket) (author : Option Nat) (internal : Bool) :
    (add_reply now t author internal).slaResolutionBreached =
      t.slaResolutionBreached := by
  cases internal <;> cases author <;>
    simp only [add_reply, Bool.false_eq_true, if_false, if_true] <;>
    split_ifs <;> simp [transition_status_resFlag]

theorem on_reply_created_unassigned (now : Nat) (t : Ticket) (author : Option Nat)
    (h : t.assignedTo = none) : on_reply_created now t author = t := by
  simp [on_reply_created, h]

/-- Claim C10: `first_response_at` is stamped by the reply pipeline exactly
when the reply is not an internal note, the field is still unset, the ticket
has an assignee, and the author is that assignee; in every other case
(internal note, other staff member, unassigned ticket) it is left as it was,
so a later `check_breach` on a staff-replied but unassigned ticket past its
first-response due date still flags the breach. -/
theorem firstResponse_stamping (now now2 : Nat) (t : Ticket) (author : Option Nat)
    (internal : Bool) (uid rid d : Nat) :
    ((add_reply_full now t author internal).firstResponseAt =
      if internal = false ∧ t.firstResponseAt = none ∧ ¬ t.assignedTo = none ∧
          author = t.assignedTo
      then some now else t.firstResponseAt) ∧
    (internal = false → author = some uid → t.requesterId = some rid → ¬ uid = rid →
      t.assignedTo = none → t.status = Status.open_ → t.firstResponseAt = none →
      t.firstResponseDueAt = some d → d < now2 → t.slaFirstResponseBreached = false →
      (check_breach now2 (add_reply_full now t author internal)).2.1 = true ∧
      (check_breach now2
        (add_reply_full now t author internal)).1.slaFirstResponseBreached = true) := by
  constructor
  · cases internal with
    | true => simp [add_reply_full, add_reply]
    | false =>
      have hass := add_reply_assigned now t author false
      have hfra := add_reply_frAt now t author false
      show (on_reply_created now (add_reply now t author false) author).firstResponseAt = _
      unfold on_reply_created
      rw [hass]
      cases hcase : t.assignedTo with
      | none => simp [hcase, hfra]
      | some a =>
        by_cases hauth : author = some a
        · by_cases hfr : t.firstResponseAt = none
          · simp [hcase, hauth, hfr, add_reply_frAt]
          · simp [hcase, hauth, hfr, add_reply_frAt]
        · simp [hcase, hauth, add_reply_frAt]
  · intro hint hauth hreq hneq hass hst hfra hdue hlt hflag
    subst hint
    have hreq' : ¬ t.requesterId = some uid := by
      rw [hreq]
      intro hcontra
      exact hneq (Option.some_injective _ hcontra).symm
    have hfull : add_reply_full now t author false =
        transition_status now t Status.waitingOnCustomer := by
      have h1 : add_reply now t author false =
          transition_status now t Status.waitingOnCustomer := by
        simp [add_reply, hauth, hreq', hst]
      have h2 : (add_reply now t author false).assignedTo = none := by
        rw [add_reply_assigned, hass]
      calc add_reply_full now t author false
          = on_reply_created now (add_reply now t author false) author := by
            simp [add_reply_full]
        _ = add_reply now t author false := on_reply_created_unassigned _ _ _ h2
        _ = transition_status now t Status.waitingOnCustomer := h1
    rw [hfull]
    have h1 : (transition_status now t Status.waitingOnCustomer).firstResponseDueAt =
        some d := by rw [transition_status_frDue, hdue]
    have h2 : (transition_status now t Status.waitingOnCustomer).firstResponseAt =
        none := by rw [transition_status_frAt, hfra]
    have h3 : (transition_status now t Status.waitingOnCustomer).slaFirstResponseBreached =
        false := by rw [transition_status_frFlag, hflag]
    have hopen : (transition_status now t Status.waitingOnCustomer).is_open = true := by
      simp [Ticket.is_open, transition_status_status]
    have hc1 : frCond now2 (transition_status now t Status.waitingOnCustomer) = true :=
      frCond_true_of now2 d _ h1 h2 h3 hlt
    have hno : ¬ (transition_status now t Status.waitingOnCustomer).is_open = false := by
      simp [hopen]
    constructor
    · simp [check_breach, hno, hc1]
    · by_cases hc2 :
        resCond now2 (setFr (transition_status now t Status.waitingOnCustomer)) = true <;>
        simp [check_breach, hno, hc1, hc2, setFr_frFlag, setRes_frFlag]

/-- A staff member with id 7 replies on the unassigned open `openSample`
(requester id 1): the first-response timestamp stays unset and the breach
still fires at time 150. -/
theorem firstResponse_stamping_witness :
    (add_reply_full 10 openSample (some 7) false).firstResponseAt = none ∧
    (check_breach 150 (add_reply_full 10 openSample (some 7) false)).2.1 = true := by
  constructor
  · have h := (firstResponse_stamping 10 150 openSample (some 7) false 7 1 100).1
    simp only [h]
    decide
  · exact ((firstResponse_stamping 10 150 openSample (some 7) false 7 1 100).2
      rfl rfl rfl (by decide) rfl rfl rfl rfl (by decide) rfl).1

/-- Breach-flag monotonicity between an input ticket and an output ticket:
each flag, once true, stays true. -/
def FlagsMono (a b : Ticket) : Prop :=
  (a.slaFirstResponseBreached = true → b.slaFirstResponseBreached = true) ∧
  (a.slaResolutionBreached = true → b.slaResolutionBreached = true)

theorem flagsMono_refl (t : Ticket) : FlagsMono t t := ⟨id, id⟩

theorem flagsMono_of_eq (a b : Ticket)
    (h1 : b.slaFirstResponseBreached = a.slaFirstResponseBreached)
    (h2 : b.slaResolutionBreached = a.slaResolutionBreached) : FlagsMono a b :=
  ⟨fun h => h1.trans h, fun h => h2.trans h⟩

theorem assign_frFlag (t : Ticket) (agent : Nat) :
    (assign_ticket t agent).slaFirstResponseBreached = t.slaFirstResponseBreached := by
  simp only [assign_ticket]
  split_ifs <;> simp

theorem assign_resFlag (t : Ticket) (agent : Nat) :
    (assign_ticket t agent).slaResolutionBreached = t.slaResolutionBreached := by
  simp only [assign_ticket]
  split_ifs <;> simp

theorem on_reply_created_frFlag (now : Nat) (t : Ticket) (author : Option Nat) :
    (on_reply_created now t author).slaFirstResponseBreached =
      t.slaFirstResponseBreached := by
  unfold on_reply_created
  cases t.assignedTo <;> simp only [] <;> split_ifs <;> simp

theorem on_reply_created_resFlag (now : Nat) (t : Ticket) (author : Option Nat) :
    (on_reply_created now t author).slaResolutionBreached =
      t.slaResolutionBreached := by
  unfold on_reply_created
  cases t.assignedTo <;> simp only [] <;> split_ifs <;> simp

theorem add_reply_full_frFlag (now : Nat) (t : Ticket) (author : Option Nat)
    (internal : Bool) :
    (add_reply_full now t author internal).slaFirstResponseBreached =
      t.slaFirstResponseBreached := by
  unfold add_reply_full
  split_ifs <;> simp [on_reply_created_frFlag, add_reply_frFlag]

theorem add_reply_full_resFlag (now : Nat) (t : Ticket) (author : Option Nat)
    (internal : Bool) :
    (add_reply_full now t author internal).slaResolutionBreached =
      t.slaResolutionBreached := by
  unfold add_reply_full
  split_ifs <;> simp [on_reply_created_resFlag, add_reply_resFlag]

theorem setFr_resFlag (t : Ticket) :
    (setFr t).slaResolutionBreached = t.slaResolutionBreached := rfl

theorem check_breach_mono (now : Nat) (t : Ticket) :
    FlagsMono t (check_breach now t).1 := by
  by_cases hno : t.is_open = false
  · simp [check_breach, hno, flagsMono_refl]
  · by_cases hc1 : frCond now t = true
    · by_cases hc2 : resCond now (setFr t) = true
      · constructor <;> intro h <;>
          simp [check_breach, hno, hc1, hc2, setFr_frFlag, setFr_resFlag,
            setRes_frFlag, setRes_resFlag, h]
      · constructor <;> intro h <;>
          simp [check_breach, hno, hc1, hc2, setFr_frFlag, setFr_resFlag,
            setRes_frFlag, setRes_resFlag, h]
    · by_cases hc2 : resCond now t = true
      · constructor <;> intro h <;>
          simp [check_breach, hno, hc1, hc2, setFr_frFlag, setFr_resFlag,
            setRes_frFlag, setRes_resFlag, h]
      · constructor <;> intro h <;>
          simp [check_breach, hno, hc1, hc2, h]

theorem stepPriority_frFlag (t : Ticket) (a : Actions) :
    (stepPriority t a).1.slaFirstResponseBreached = t.slaFirstResponseBreached := by
  unfold stepPriority
  cases a.setPriority <;> simp only [] <;> split_ifs <;> simp

theorem stepPriority_resFlag (t : Ticket) (a : Actions) :
    (stepPriority t a).1.slaResolutionBreached = t.slaResolutionBreached := by
  unfold stepPriority
  cases a.setPriority <;> simp only [] <;> split_ifs <;> simp

theorem stepEscalate_frFlag (t : Ticket) (a : Actions) :
    (stepEscalate t a).1.slaFirstResponseBreached = t.slaFirstResponseBreached := by
  unfold stepEscalate
  split_ifs <;> simp

theorem stepEscalate_resFlag (t : Ticket) (a : Actions) :
    (stepEscalate t a).1.slaResolutionBreached = t.slaResolutionBreached := by
  unfold stepEscalate
  split_ifs <;> simp

theorem stepAssign_frFlag (env : Env) (t : Ticket) (a : Actions) :
    (stepAssign env t a).1.slaFirstResponseBreached = t.slaFirstResponseBreached := by
  unfold stepAssign
  cases a.assignToId <;> simp only [] <;> split_ifs <;> simp

theorem stepAssign_resFlag (env : Env) (t : Ticket) (a : Actions) :
    (stepAssign env t a).1.slaResolutionBreached = t.slaResolutionBreached := by
  unfold stepAssign
  cases a.assignToId <;> simp only [] <;> split_ifs <;> simp

theorem stepDepartment_frFlag (env : Env) (t : Ticket) (a : Actions) :
    (stepDepartment env t a).1.slaFirstResponseBreached = t.slaFirstResponseBreached := by
  unfold stepDepartment
  cases a.departmentId <;> simp only [] <;> split_ifs <;> simp

theorem stepDepartment_resFlag (env : Env) (t : Ticket) (a : Actions) :
    (stepDepartment env t a).1.slaResolutionBreached = t.slaResolutionBreached := by
  unfold stepDepartment
  cases a.departmentId <;> simp only [] <;> split_ifs <;> simp

theorem execute_actions_frFlag (env : Env) (t : Ticket) (r : Rule) :
    (execute_actions env t r).1.slaFirstResponseBreached =
      t.slaFirstResponseBreached := by
  unfold execute_actions
  simp [stepDepartment_frFlag, stepAssign_frFlag, stepEscalate_frFlag, stepPriority_frFlag]

theorem execute_actions_resFlag (env : Env) (t : Ticket) (r : Rule) :
    (execute_actions env t r).1.slaResolutionBreached =
      t.slaResolutionBreached := by
  unfold execute_actions
  simp [stepDepartment_resFlag, stepAssign_resFlag, stepEscalate_resFlag, stepPriority_resFlag]

theorem applyRule_frFlag (env : Env) (now : Nat) (r : Rule) (t : Ticket) :
    (applyRule env now r t).1.slaFirstResponseBreached = t.slaFirstResponseBreached := by
  unfold applyRule
  split_ifs <;> simp [execute_actions_frFlag]

theorem applyRule_resFlag (env : Env) (now : Nat) (r : Rule) (t : Ticket) :
    (applyRule env now r t).1.slaResolutionBreached = t.slaResolutionBreached := by
  unfold applyRule
  split_ifs <;> simp [execute_actions_resFlag]

theorem forall₂_flagsMono_refl (l : List Ticket) : List.Forall₂ FlagsMono l l := by
  induction l with
  | nil => exact List.Forall₂.nil
  | cons t ts ih => exact List.Forall₂.cons (flagsMono_refl t) ih

theorem forall₂_flagsMono_trans {a b c : List Ticket}
    (h1 : List.Forall₂ FlagsMono a b) (h2 : List.Forall₂ FlagsMono b c) :
    List.Forall₂ FlagsMono a c := by
  induction h1 generalizing c with
  | nil =>
    cases h2
    exact List.Forall₂.nil
  | cons hab _ ih =>
    cases h2 with
    | cons hbc h' =>
      exact List.Forall₂.cons ⟨fun x => hbc.1 (hab.1 x), fun x => hbc.2 (hab.2 x)⟩ (ih h')

theorem rulePass_mono (env : Env) (now : Nat) (r : Rule) (store : List Ticket) :
    List.Forall₂ FlagsMono store (rulePass env now r store).1 := by
  induction store with
  | nil => exact List.Forall₂.nil
  | cons t ts ih =>
    exact List.Forall₂.cons
      (flagsMono_of_eq t _ (applyRule_frFlag env now r t) (applyRule_resFlag env now r t)) ih

theorem runRules_mono (env : Env) (now : Nat) (rs : List Rule) :
    ∀ store : List Ticket, List.Forall₂ FlagsMono store (runRules env now rs store).1 := by
  induction rs with
  | nil => exact fun store => forall₂_flagsMono_refl store
  | cons r rs ih =>
    intro store
    exact forall₂_flagsMono_trans (rulePass_mono env now r store)
      (ih (rulePass env now r store).1)

/-- Claim C4: every core operation is breach-flag monotonic.  State
transitions (including Reopened), assignment and unassignment, the full
reply pipeline, `check_breach`, escalation action execution, and a whole
`evaluate_all` sweep each leave a set flag set and never clear one. -/
theorem breach_flags_monotonic (now : Nat) (t : Ticket) (s : Status) (agent : Nat)
    (author : Option Nat) (internal : Bool) (env : Env) (r : Rule)
    (rules : List Rule) (store : List Ticket) :
    FlagsMono t (transition_status now t s) ∧
    FlagsMono t (assign_ticket t agent) ∧
    FlagsMono t (unassign_ticket t) ∧
    FlagsMono t (add_reply_full now t author internal) ∧
    FlagsMono t (check_breach now t).1 ∧
    FlagsMono t (execute_actions env t r).1 ∧
    List.Forall₂ FlagsMono store (evaluate_all env now rules store).1 := by
  refine ⟨?_, ?_, ?_, ?_, check_breach_mono now t, ?_, ?_⟩
  · exact flagsMono_of_eq t _ (transition_status_frFlag now t s)
      (transition_status_resFlag now t s)
  · exact flagsMono_of_eq t _ (assign_frFlag t agent) (assign_resFlag t agent)
  · exact flagsMono_of_eq t _ rfl rfl
  · exact flagsMono_of_eq t _ (add_reply_full_frFlag now t author internal)
      (add_reply_full_resFlag now t author internal)
  · exact flagsMono_of_eq t _ (execute_actions_frFlag env t r)
      (execute_actions_resFlag env t r)
  · exact runRules_mono env now _ store

/-- The everything-absent condition map. -/
def emptyConds : Conditions := ⟨none, none, none, none, none, none, false⟩

/-- The no-op action map. -/
def noActions : Actions := ⟨none, false, none, none⟩

/-- An inactive rule with no conditions and no actions. -/
def idleRule : Rule := ⟨0, false, TriggerType.customerReply, emptyConds, noActions⟩

/-- An identity resolver that knows no users and no departments. -/
def emptyEnv : Env := ⟨[], []⟩

/-- Claim C4 witness: reopening the breached `resolvedSample` keeps its set
first-response breach flag. -/
theorem breach_flags_monotonic_witness :
    (transition_status 99 resolvedSample Status.reopened).slaFirstResponseBreached = true :=
  (breach_flags_monotonic 99 resolvedSample Status.reopened 0 none false
    emptyEnv idleRule [] []).1.1 rfl

theorem stepPriority_status (t : Ticket) (a : Actions) :
    (stepPriority t a).1.status = t.status := by
  unfold stepPriority
  cases a.setPriority <;> simp only [] <;> split_ifs <;> simp

theorem stepAssign_status (env : Env) (t : Ticket) (a : Actions) :
    (stepAssign env t a).1.status = t.status := by
  unfold stepAssign
  cases a.assignToId <;> simp only [] <;> split_ifs <;> simp

theorem stepDepartment_status (env : Env) (t : Ticket) (a : Actions) :
    (stepDepartment env t a).1.status = t.status := by
  unfold stepDepartment
  cases a.departmentId <;> simp only [] <;> split_ifs <;> simp

theorem stepEscalate_status (t : Ticket) (a : Actions) :
    (stepEscalate t a).1.status = t.status ∨
      (stepEscalate t a).1.status = Status.escalated := by
  unfold stepEscalate
  split_ifs
  · right
    simp
  · left
    rfl

theorem stepEscalate_priority (t : Ticket) (a : Actions) :
    (stepEscalate t a).1.priority = t.priority := by
  unfold stepEscalate
  split_ifs <;> simp

theorem stepAssign_priority (env : Env) (t : Ticket) (a : Actions) :
    (stepAssign env t a).1.priority = t.priority := by
  unfold stepAssign
  cases a.assignToId <;> simp only [] <;> split_ifs <;> simp

theorem stepDepartment_priority (env : Env) (t : Ticket) (a : Actions) :
    (stepDepartment env t a).1.priority = t.priority := by
  unfold stepDepartment
  cases a.departmentId <;> simp only [] <;> split_ifs <;> simp

theorem stepPriority_set (t : Ticket) (a : Actions) (p : Priority)
    (h : a.setPriority = some p) : (stepPriority t a).1.priority = p := by
  unfold stepPriority
  rw [h]
  simp only []
  split_ifs with hp
  · exact hp
  · rfl

theorem execute_actions_priority (env : Env) (t : Ticket) (r : Rule) (p : Priority)
    (h : r.actions.setPriority = some p) : (execute_actions env t r).1.priority = p := by
  simp [execute_actions, stepDepartment_priority, stepAssign_priority,
    stepEscalate_priority, stepPriority_set t r.actions p h]

theorem execute_actions_status (env : Env) (t : Ticket) (r : Rule) :
    (execute_actions env t r).1.status = t.status ∨
      (execute_actions env t r).1.status = Status.escalated := by
  simp only [execute_actions]
  rw [stepDepartment_status, stepAssign_status]
  rcases stepEscalate_status (stepPriority t r.actions).1 r.actions with he | he
  · left
    rw [he, stepPriority_status]
  · right
    exact he

theorem execute_actions_is_open (env : Env) (t : Ticket) (r : Rule)
    (h : t.is_open = true) : (execute_actions env t r).1.is_open = true := by
  rcases execute_actions_status env t r with he | he
  · simp only [Ticket.is_open] at h ⊢
    rw [he]
    exact h
  · simp [Ticket.is_open, he]

/-- Claim C7: with two active rules in ascending order that both carry a
`set_priority` action, `evaluate_all` applies the earlier rule first and the
later rule second against the already-mutated ticket, so the final priority
is the later rule's value (the earlier rule's value was indeed applied in
between). -/
theorem evaluateAll_later_rule_wins (env : Env) (now : Nat) (r1 r2 : Rule)
    (t : Ticket) (p1 p2 : Priority)
    (ha1 : r1.isActive = true) (ha2 : r2.isActive = true)
    (hord : r1.order ≤ r2.order)
    (hp1 : r1.actions.setPriority = some p1)
    (hp2 : r2.actions.setPriority = some p2)
    (hopen : t.is_open = true)
    (hm1 : matches_conditions now t r1 = true)
    (hm2 : matches_conditions now (execute_actions env t r1).1 r2 = true) :
    ∃ tf, (evaluate_all env now [r1, r2] [t]).1 = [tf] ∧ tf.priority = p2 ∧
      (execute_actions env t r1).1.priority = p1 := by
  have hsort : sortByOrder (List.filter (fun r => r.isActive) [r1, r2]) = [r1, r2] := by
    simp [List.filter, ha1, ha2, sortByOrder, insertByOrder, hord]
  have happ1 : applyRule env now r1 t = execute_actions env t r1 := by
    simp [applyRule, hopen, hm1]
  have ho1 : (execute_actions env t r1).1.is_open = true :=
    execute_actions_is_open env t r1 hopen
  have happ2 : applyRule env now r2 (execute_actions env t r1).1 =
      execute_actions env (execute_actions env t r1).1 r2 := by
    simp [applyRule, ho1, hm2]
  refine ⟨(execute_actions env (execute_actions env t r1).1 r2).1, ?_, ?_, ?_⟩
  · simp [evaluate_all, hsort, runRules, rulePass, happ1, happ2]
  · exact execute_actions_priority env _ r2 p2 hp2
  · exact execute_actions_priority env t r1 p1 hp1

/-- An active order-1 rule triggered by SLA breach that sets priority high. -/
def ruleSetHigh : Rule :=
  ⟨1, true, TriggerType.slaBreach, emptyConds, ⟨some Priority.high, false, none, none⟩⟩

/-- An active order-2 rule triggered by SLA breach that sets priority urgent. -/
def ruleSetUrgent : Rule :=
  ⟨2, true, TriggerType.slaBreach, emptyConds, ⟨some Priority.urgent, false, none, none⟩⟩

/-- `openSample` with its first-response breach flag already set. -/
def breachedSample : Ticket := { openSample with slaFirstResponseBreached := true }

/-- Claim C7 witness: both rules match the breached open ticket; the
order-2 rule's urgent priority is the final value, the order-1 rule's high
priority was applied in between. -/
theorem evaluateAll_later_rule_wins_witness :
    ∃ tf, (evaluate_all emptyEnv 0 [ruleSetHigh, ruleSetUrgent] [breachedSample]).1 =
        [tf] ∧ tf.priority = Priority.urgent ∧
      (execute_actions emptyEnv breachedSample ruleSetHigh).1.priority = Priority.high :=
  evaluateAll_later_rule_wins emptyEnv 0 ruleSetHigh ruleSetUrgent breachedSample
    Priority.high Priority.urgent rfl rfl (by decide) rfl rfl (by decide) (by decide)
    (by decide)

end Escalated
